import Mathlib

/-!
Shallow embedding of the Fintech-Flow backend (`backend/server.py`).

The Mongo document store is modelled as explicit lists of records inside a
`DB` state value; every HTTP handler becomes a pure function
`DB → … → result × DB` that threads the state, returning the state exactly
as it stood when the handler raised (FastAPI `HTTPException`) or returned.
Python `float` amounts are modelled as exact rationals (`ℚ`); Mongo
`find_one` is `List.find?` (first match), `update_one` with `$inc`/`$set`
updates the first matching document, `insert_one` appends, `sort(-1)` is a
descending merge sort and `to_list(100)` is `List.take 100`.
-/

namespace FintechFlow

/-- FastAPI `HTTPException`: status code plus detail string. -/
structure HTTPError where
  status_code : Nat
  detail : String
deriving Repr, DecidableEq

/-- `User` model (`server.py` lines 51-59); auth fields irrelevant to the
claims are omitted. -/
structure User where
  id : String
  email : String
  full_name : String
  kyc_status : String := "pending"
  is_active : Bool := true
deriving Repr, DecidableEq

/-- `PIXAccount` model (`server.py` lines 89-97). -/
structure PIXAccount where
  id : String
  user_id : String
  pix_key : String
  pix_key_type : String := "email"
  balance : ℚ := 0
  is_active : Bool := true
deriving Repr, DecidableEq

/-- `PIXTransaction` model (`server.py` lines 99-111); `created_at` and
`completed_at` timestamps are abstract `Nat` ticks. -/
structure PIXTransaction where
  id : String
  from_user_id : Option String := none
  to_user_id : Option String := none
  from_pix_key : Option String := none
  to_pix_key : String
  amount : ℚ
  description : Option String := none
  transaction_type : String
  status : String := "pending"
  created_at : Nat
  completed_at : Option Nat := none
deriving Repr, DecidableEq

/-- `PIXTransfer` request body (`server.py` lines 113-116). -/
structure PIXTransfer where
  to_pix_key : String
  amount : ℚ
  description : Option String := none
deriving Repr, DecidableEq

/-- `PIXQRCode` request body (`server.py` lines 118-120). -/
structure PIXQRCode where
  amount : ℚ
  description : Option String := none
deriving Repr, DecidableEq

/-- `KYCDocument` model (`server.py` lines 67-80); image payloads omitted. -/
structure KYCDocument where
  id : String
  user_id : String
  document_type : String
  document_number : String
  status : String := "pending"
  reviewed_at : Option Nat := none
  reviewer_id : Option String := none
  reviewer_notes : Option String := none
deriving Repr, DecidableEq

/-- `VirtualCard` model (`server.py` lines 123-136); generated card number,
cvv and expiry are irrelevant to the claims and omitted. -/
structure VirtualCard where
  id : String
  user_id : String
  card_holder_name : String
  status : String := "active"
  daily_limit : ℚ := 5000
  monthly_limit : ℚ := 50000
  daily_spent : ℚ := 0
  monthly_spent : ℚ := 0
deriving Repr, DecidableEq

/-- `CardCreate` request body (`server.py` lines 148-151): pydantic defaults
`daily_limit=5000.0`, `monthly_limit=50000.0` apply when unspecified. -/
structure CardCreate where
  card_holder_name : String
  daily_limit : ℚ := 5000
  monthly_limit : ℚ := 50000
deriving Repr, DecidableEq

/-- The Mongo database: one list per collection used by the claims. -/
structure DB where
  users : List User := []
  pix_accounts : List PIXAccount := []
  pix_transactions : List PIXTransaction := []
  virtual_cards : List VirtualCard := []
  kyc_documents : List KYCDocument := []
deriving Repr, DecidableEq

/-- `db.pix_accounts.find_one({"user_id": uid})`. -/
def findAccountByUser (db : DB) (uid : String) : Option PIXAccount :=
  db.pix_accounts.find? (fun a => a.user_id == uid)

/-- `db.pix_accounts.find_one({"pix_key": key})`. -/
def findAccountByKey (db : DB) (key : String) : Option PIXAccount :=
  db.pix_accounts.find? (fun a => a.pix_key == key)

/-- `db.pix_accounts.update_one({"user_id": uid}, {"$inc": {"balance": d}})`:
adds `d` to the balance of the first account whose `user_id` matches. -/
def incBalance : List PIXAccount → String → ℚ → List PIXAccount
  | [], _, _ => []
  | a :: rest, uid, d =>
    if a.user_id == uid then { a with balance := a.balance + d } :: rest
    else a :: incBalance rest uid d

/-- Balance of the first account owned by `uid`, as `find_one` reports it. -/
def getBalance (db : DB) (uid : String) : Option ℚ :=
  (findAccountByUser db uid).map (·.balance)

/-- `POST /api/pix/transfer` (`server.py` lines 319-360).  `txn_id` stands for
the freshly generated transaction uuid and `now` for `datetime.utcnow()`.
Returns the handler's result together with the database state. -/
def pix_transfer (db : DB) (current_user_id : String) (transfer_data : PIXTransfer)
    (txn_id : String) (now : Nat) : Except HTTPError String × DB :=
  match findAccountByUser db current_user_id with
  | none => (.error ⟨404, "PIX account not found"⟩, db)
  | some sender_account =>
    if sender_account.balance < transfer_data.amount then
      (.error ⟨400, "Insufficient balance"⟩, db)
    else
      match findAccountByKey db transfer_data.to_pix_key with
      | none => (.error ⟨404, "Recipient not found"⟩, db)
      | some recipient_account =>
        let transaction : PIXTransaction :=
          { id := txn_id
            from_user_id := some current_user_id
            to_user_id := some recipient_account.user_id
            from_pix_key := some sender_account.pix_key
            to_pix_key := transfer_data.to_pix_key
            amount := transfer_data.amount
            description := transfer_data.description
            transaction_type := "send"
            status := "completed"
            created_at := now
            completed_at := some now }
        let db1 : DB := { db with pix_transactions := db.pix_transactions ++ [transaction] }
        let db2 : DB := { db1 with
          pix_accounts := incBalance db1.pix_accounts current_user_id (-transfer_data.amount) }
        let db3 : DB := { db2 with
          pix_accounts := incBalance db2.pix_accounts recipient_account.user_id transfer_data.amount }
        (.ok transaction.id, db3)

/-- `GET /api/pix/transactions` (`server.py` lines 362-371): Mongo
`find({$or: [{from_user_id}, {to_user_id}]}).sort("created_at", -1).to_list(100)`
as filter, then descending merge sort on `created_at`, then `take 100`. -/
def get_pix_transactions (db : DB) (current_user_id : String) : List PIXTransaction :=
  (((db.pix_transactions.filter
        (fun t => t.from_user_id == some current_user_id
          || t.to_user_id == some current_user_id)).mergeSort
      (fun a b => decide (b.created_at ≤ a.created_at))).take 100)

/-- `POST /api/cards/create` (`server.py` lines 374-387).  `card_id` stands for
the generated uuid; card number, cvv and expiry generation are external. -/
def create_card (db : DB) (current_user : User) (card_data : CardCreate)
    (card_id : String) : Except HTTPError VirtualCard × DB :=
  if current_user.kyc_status ≠ "approved" then
    (.error ⟨400, "KYC approval required for card creation"⟩, db)
  else
    let card : VirtualCard :=
      { id := card_id
        user_id := current_user.id
        card_holder_name := card_data.card_holder_name
        daily_limit := card_data.daily_limit
        monthly_limit := card_data.monthly_limit }
    (.ok card, { db with virtual_cards := db.virtual_cards ++ [card] })

/-- JSON values as produced by `json.dumps` on the QR payload dict
(`server.py` line 311): the payload holds only strings, a number and
possibly `None`. -/
inductive Json where
  | str : String → Json
  | num : ℚ → Json
  | null : Json
  | obj : List (String × Json) → Json

/-- Field lookup in a decoded JSON object (`json.loads(...)["k"]`). -/
def Json.lookup : Json → String → Option Json
  | .obj fields, k => (fields.find? (fun p => p.1 == k)).map (·.2)
  | _, _ => none

/-- A Python `Optional[str]` serialized into JSON. -/
def optionalStr : Option String → Json
  | some s => .str s
  | none => .null

/-- The `qr_payload` dict built by `generate_pix_qr`
(`server.py` lines 304-309), in its literal key order. -/
def qr_payload (pix_key : String) (amount : ℚ) (description : Option String)
    (merchant_name : String) : Json :=
  .obj [("pix_key", .str pix_key), ("amount", .num amount),
        ("description", optionalStr description),
        ("merchant_name", .str merchant_name)]

/-- Decoding a QR payload: parse the serialized object back and project the
`pix_key`, `amount` and `description` fields. -/
def decode_qr_payload (j : Json) : Option (String × ℚ × Option String) :=
  match j.lookup "pix_key", j.lookup "amount", j.lookup "description" with
  | some (.str k), some (.num a), some (.str s) => some (k, a, some s)
  | some (.str k), some (.num a), some .null => some (k, a, none)
  | _, _, _ => none

/-- Response of `generate_pix_qr`: the payload handed to the external QR
renderer (`generate_qr_code`, `server.py` lines 189-198, which only encodes
the string it is given), plus the `pix_key` and `amount` response fields. -/
structure QRResponse where
  qr_code_payload : Json
  pix_key : String
  amount : ℚ

/-- `POST /api/pix/generate-qr` (`server.py` lines 298-317). -/
def generate_pix_qr (db : DB) (current_user : User) (qr_data : PIXQRCode) :
    Except HTTPError QRResponse × DB :=
  match findAccountByUser db current_user.id with
  | none => (.error ⟨404, "PIX account not found"⟩, db)
  | some pix_account =>
    (.ok { qr_code_payload :=
             qr_payload pix_account.pix_key qr_data.amount qr_data.description
               current_user.full_name
           pix_key := pix_account.pix_key
           amount := qr_data.amount }, db)

/-- Mongo `update_one(filter, {"$set": ...})`: rewrite the first matching
document with `f`; later matches are untouched. -/
def updateFirst (p : α → Bool) (f : α → α) : List α → List α
  | [] => []
  | x :: rest => if p x then f x :: rest else x :: updateFirst p f rest

/-- `PUT /api/admin/kyc/{kyc_id}/review` (`server.py` lines 460-491).
`action_status`/`action_notes` model `action.get("status")`/`action.get("notes")`
on the request dict; `reviewer_user_id` is the authenticated caller and `now`
is `datetime.utcnow()`. -/
def review_kyc (db : DB) (kyc_id : String) (action_status : Option String)
    (action_notes : Option String) (reviewer_user_id : String) (now : Nat) :
    Except HTTPError String × DB :=
  match action_status with
  | none => (.error ⟨400, "Invalid status"⟩, db)
  | some s =>
    if s ≠ "approved" ∧ s ≠ "rejected" then
      (.error ⟨400, "Invalid status"⟩, db)
    else
      let notes := action_notes.getD ""
      let db1 : DB := { db with
        kyc_documents := updateFirst (fun d => d.id == kyc_id)
          (fun d => { d with
            status := s
            reviewed_at := some now
            reviewer_id := some reviewer_user_id
            reviewer_notes := some notes }) db.kyc_documents }
      if ¬ db.kyc_documents.any (fun d => d.id == kyc_id) then
        (.error ⟨404, "KYC document not found"⟩, db1)
      else
        match db1.kyc_documents.find? (fun d => d.id == kyc_id) with
        | none => (.ok ("KYC " ++ s ++ " successfully"), db1)
        | some kyc_doc =>
          let db2 : DB := { db1 with
            users := updateFirst (fun u => u.id == kyc_doc.user_id)
              (fun u => { u with kyc_status := s }) db1.users }
          (.ok ("KYC " ++ s ++ " successfully"), db2)

/-- Status of the first KYC document with the given id, as `find_one` sees it. -/
def kycDocStatus (db : DB) (kyc_id : String) : Option String :=
  (db.kyc_documents.find? (fun d => d.id == kyc_id)).map (·.status)

/-- `kyc_status` of the first user with the given id, as `find_one` sees it. -/
def userKycStatus (db : DB) (uid : String) : Option String :=
  (db.users.find? (fun u => u.id == uid)).map (·.kyc_status)

/-! ### Helper lemmas about the Mongo update primitives -/

theorem find?_incBalance_self (accs : List PIXAccount) (uid : String) (d : ℚ) :
    (incBalance accs uid d).find? (fun a => a.user_id == uid) =
      (accs.find? (fun a => a.user_id == uid)).map
        (fun a => { a with balance := a.balance + d }) := by
  induction accs with
  | nil => rfl
  | cons a rest ih =>
    by_cases h : a.user_id == uid
    · simp [incBalance, h, List.find?_cons]
    · simp [incBalance, h, List.find?_cons, ih]

theorem find?_incBalance_other (accs : List PIXAccount) (uid uid' : String) (d : ℚ)
    (hne : uid' ≠ uid) :
    (incBalance accs uid d).find? (fun a => a.user_id == uid') =
      accs.find? (fun a => a.user_id == uid') := by
  induction accs with
  | nil => rfl
  | cons a rest ih =>
    by_cases h : a.user_id == uid
    · have ha : a.user_id = uid := beq_iff_eq.mp h
      have hne' : (a.user_id == uid') = false :=
        beq_eq_false_iff_ne.mpr (by rw [ha]; exact fun hc => hne hc.symm)
      simp [incBalance, h, List.find?_cons, hne']
    · by_cases h' : a.user_id == uid'
      · simp [incBalance, h, List.find?_cons, h']
      · simp [incBalance, h, List.find?_cons, h', ih]

theorem incBalance_incBalance (accs : List PIXAccount) (uid : String) (c d : ℚ) :
    incBalance (incBalance accs uid c) uid d = incBalance accs uid (c + d) := by
  induction accs with
  | nil => rfl
  | cons a rest ih =>
    by_cases h : a.user_id == uid
    · simp [incBalance, h, add_assoc]
    · simp [incBalance, h, ih]

theorem incBalance_zero (accs : List PIXAccount) (uid : String) :
    incBalance accs uid 0 = accs := by
  induction accs with
  | nil => rfl
  | cons a rest ih =>
    by_cases h : a.user_id == uid
    · simp [incBalance, h]
    · simp [incBalance, h, ih]

theorem incBalance_nonneg (accs : List PIXAccount) (uid : String) (d : ℚ)
    (hnn : ∀ a ∈ accs, 0 ≤ a.balance)
    (hfind : ∀ s, accs.find? (fun a => a.user_id == uid) = some s → 0 ≤ s.balance + d) :
    ∀ a ∈ incBalance accs uid d, 0 ≤ a.balance := by
  induction accs with
  | nil => intro a ha; simp [incBalance] at ha
  | cons x rest ih =>
    intro a ha
    by_cases h : x.user_id == uid
    · simp only [incBalance, h, if_true] at ha
      rcases List.mem_cons.mp ha with rfl | ha
      · exact hfind x (by simp [List.find?_cons, h])
      · exact hnn a (List.mem_cons_of_mem _ ha)
    · simp only [incBalance, h, if_false] at ha
      rcases List.mem_cons.mp ha with rfl | ha
      · exact hnn a (List.mem_cons_self _ _)
      · exact ih (fun b hb => hnn b (List.mem_cons_of_mem _ hb))
          (fun s hs => hfind s (by simp [List.find?_cons, h, hs])) a ha

theorem find?_updateFirst (p : α → Bool) (f : α → α) (l : List α)
    (hf : ∀ x, p x = true → p (f x) = true) :
    (updateFirst p f l).find? p = (l.find? p).map f := by
  induction l with
  | nil => rfl
  | cons x rest ih =>
    by_cases h : p x
    · simp [updateFirst, h, List.find?_cons, hf x h]
    · simp [updateFirst, h, List.find?_cons, ih]

/-- Shape of a successful transfer: with the sender found, the balance guard
passed and the recipient found, the handler appends exactly one completed
transaction and applies the two `$inc` updates. -/
theorem pix_transfer_ok (db : DB) (uid : String) (t : PIXTransfer) (txn_id : String)
    (now : Nat) (s r : PIXAccount)
    (hs : findAccountByUser db uid = some s)
    (hbal : ¬ s.balance < t.amount)
    (hr : findAccountByKey db t.to_pix_key = some r) :
    pix_transfer db uid t txn_id now =
      (.ok txn_id,
       { db with
         pix_transactions := db.pix_transactions ++
           [{ id := txn_id, from_user_id := some uid, to_user_id := some r.user_id,
              from_pix_key := some s.pix_key, to_pix_key := t.to_pix_key,
              amount := t.amount, description := t.description,
              transaction_type := "send", status := "completed",
              created_at := now, completed_at := some now }]
         pix_accounts := incBalance (incBalance db.pix_accounts uid (-t.amount))
           r.user_id t.amount }) := by
  unfold pix_transfer
  simp only [hs, hr, hbal, if_false, ite_false]

/-- **C1**: for every successful transfer whose recipient account belongs to a
user distinct from the sender, the sender's balance decreases by exactly the
transfer amount, the recipient's balance increases by exactly that amount, and
the sum of the two balances is unchanged. -/
theorem pix_transfer_conservation (db : DB) (uid : String) (t : PIXTransfer)
    (txn_id : String) (now : Nat) (db' : DB) (tid : String) (r : PIXAccount)
    (hok : pix_transfer db uid t txn_id now = (.ok tid, db'))
    (hr : findAccountByKey db t.to_pix_key = some r)
    (hne : r.user_id ≠ uid) :
    ∃ sb rb, getBalance db uid = some sb ∧ getBalance db r.user_id = some rb ∧
      getBalance db' uid = some (sb - t.amount) ∧
      getBalance db' r.user_id = some (rb + t.amount) ∧
      (sb - t.amount) + (rb + t.amount) = sb + rb := by
  cases hs : findAccountByUser db uid with
  | none => unfold pix_transfer at hok; rw [hs] at hok; simp at hok
  | some s =>
    by_cases hlt : s.balance < t.amount
    · unfold pix_transfer at hok; rw [hs] at hok; simp [hlt] at hok
    · have h2 := (pix_transfer_ok db uid t txn_id now s r hs hlt hr).symm.trans hok
      have hdb := (Prod.ext_iff.mp h2).2
      subst hdb
      have hrmem : r ∈ db.pix_accounts := List.mem_of_find?_eq_some hr
      obtain ⟨b, hb⟩ : ∃ b, findAccountByUser db r.user_id = some b :=
        Option.isSome_iff_exists.mp
          (List.find?_isSome.mpr ⟨r, hrmem, by simp⟩)
      refine ⟨s.balance, b.balance, by simp [getBalance, hs], by simp [getBalance, hb],
        ?_, ?_, by ring⟩
      · simp only [getBalance, findAccountByUser]
        rw [find?_incBalance_other _ _ _ _ (fun h => hne h.symm),
          find?_incBalance_self]
        have hs' : db.pix_accounts.find? (fun a => a.user_id == uid) = some s := hs
        rw [hs']
        simp [sub_eq_add_neg]
      · simp only [getBalance, findAccountByUser]
        rw [find?_incBalance_self, find?_incBalance_other _ _ _ _ hne]
        have hb' : db.pix_accounts.find? (fun a => a.user_id == r.user_id) = some b := hb
        rw [hb']
        simp

/-- Two freshly registered users with their automatically opened accounts,
both at the creation balance `0`. -/
def twoAccountDB : DB :=
  { users := [{ id := "u1", email := "alice@x.br", full_name := "Alice" },
              { id := "u2", email := "bob@x.br", full_name := "Bob" }]
    pix_accounts := [{ id := "a1", user_id := "u1", pix_key := "alice@x.br" },
                     { id := "a2", user_id := "u2", pix_key := "bob@x.br" }] }

/-- Like `twoAccountDB`, but the first account was funded with `100`. -/
def fundedDB : DB :=
  { users := [{ id := "u1", email := "alice@x.br", full_name := "Alice" },
              { id := "u2", email := "bob@x.br", full_name := "Bob" }]
    pix_accounts :=
      [{ id := "a1", user_id := "u1", pix_key := "alice@x.br", balance := 100 },
       { id := "a2", user_id := "u2", pix_key := "bob@x.br" }] }

theorem pix_transfer_conservation_witness :
    ∃ sb rb, getBalance fundedDB "u1" = some sb ∧ getBalance fundedDB "u2" = some rb ∧
      getBalance (pix_transfer fundedDB "u1" ⟨"bob@x.br", 30, none⟩ "t1" 5).2 "u1"
        = some (sb - 30) ∧
      getBalance (pix_transfer fundedDB "u1" ⟨"bob@x.br", 30, none⟩ "t1" 5).2 "u2"
        = some (rb + 30) ∧
      (sb - 30) + (rb + 30) = sb + rb :=
  pix_transfer_conservation fundedDB "u1" ⟨"bob@x.br", 30, none⟩ "t1" 5
    (pix_transfer fundedDB "u1" ⟨"bob@x.br", 30, none⟩ "t1" 5).2 "t1"
    { id := "a2", user_id := "u2", pix_key := "bob@x.br" }
    rfl rfl (by decide)

/-- **C2**, counterexample: starting from two freshly created accounts (both
at balance `0`, as at account creation), a transfer of amount `-10` completes
successfully and leaves the recipient's balance at `-10 < 0`. -/
theorem pix_balance_nonneg_counterexample :
    (pix_transfer twoAccountDB "u1" ⟨"bob@x.br", -10, none⟩ "t1" 0).1 = .ok "t1" ∧
    getBalance (pix_transfer twoAccountDB "u1" ⟨"bob@x.br", -10, none⟩ "t1" 0).2 "u2"
      = some (-10) ∧
    ¬ (0:ℚ) ≤ -10 := by
  refine ⟨rfl, by with_unfolding_all rfl, by norm_num⟩

/-- **C2** (amended): after any completed transfer with a *non-negative*
amount, every account balance is non-negative, provided every balance was
non-negative before (account creation starts at `0`); with a negative amount
the code can drive the recipient's balance negative. -/
theorem pix_transfer_balances_nonneg (db : DB) (uid : String) (t : PIXTransfer)
    (txn_id : String) (now : Nat) (db' : DB) (tid : String)
    (hamt : 0 ≤ t.amount)
    (hnn : ∀ a ∈ db.pix_accounts, 0 ≤ a.balance)
    (hok : pix_transfer db uid t txn_id now = (.ok tid, db')) :
    ∀ a ∈ db'.pix_accounts, 0 ≤ a.balance := by
  cases hs : findAccountByUser db uid with
  | none => unfold pix_transfer at hok; rw [hs] at hok; simp at hok
  | some s =>
    by_cases hlt : s.balance < t.amount
    · unfold pix_transfer at hok; rw [hs] at hok; simp [hlt] at hok
    · cases hr : findAccountByKey db t.to_pix_key with
      | none => unfold pix_transfer at hok; rw [hs] at hok; simp [hlt, hr] at hok
      | some r =>
        have h2 := (pix_transfer_ok db uid t txn_id now s r hs hlt hr).symm.trans hok
        have hdb := (Prod.ext_iff.mp h2).2
        subst hdb
        have hnn2 : ∀ a ∈ incBalance db.pix_accounts uid (-t.amount), 0 ≤ a.balance := by
          apply incBalance_nonneg _ _ _ hnn
          intro s' hs'
          have hfind : db.pix_accounts.find? (fun a => a.user_id == uid) = some s := hs
          rw [hfind] at hs'
          obtain rfl := Option.some.inj hs'
          have hle := not_lt.mp hlt
          linarith
        refine incBalance_nonneg _ _ _ hnn2 ?_
        intro s' hs'
        have h0 : 0 ≤ s'.balance := hnn2 s' (List.mem_of_find?_eq_some hs')
        linarith

theorem pix_transfer_balances_nonneg_witness :
    (0:ℚ) ≤ ({ id := "a1", user_id := "u1", pix_key := "alice@x.br",
               balance := 70 } : PIXAccount).balance :=
  pix_transfer_balances_nonneg fundedDB "u1" ⟨"bob@x.br", 30, none⟩ "t1" 5
    (pix_transfer fundedDB "u1" ⟨"bob@x.br", 30, none⟩ "t1" 5).2 "t1"
    (by norm_num) (by decide) rfl _ (by with_unfolding_all decide)

/-- **C3**, counterexample: the handler never checks `amount <= 0`.  A transfer
of amount `-5 ≤ 0` from `u1` (balance `0`) to the existing key `bob@x.br`
returns success instead of an InvalidArgument (HTTP 400) error. -/
theorem pix_transfer_nonpositive_counterexample :
    (-5:ℚ) ≤ 0 ∧
    (pix_transfer twoAccountDB "u1" ⟨"bob@x.br", -5, none⟩ "t1" 0).1 = .ok "t1" :=
  ⟨by norm_num, rfl⟩

/-- **C3** (amended): the transfer operation performs no validation of the
amount, so a request with `amount ≤ 0` is *not* rejected with InvalidArgument:
whenever the sender's account exists with a non-negative balance and the
recipient key resolves, the transfer succeeds. -/
theorem pix_transfer_accepts_nonpositive (db : DB) (uid : String) (t : PIXTransfer)
    (txn_id : String) (now : Nat) (s r : PIXAccount)
    (hs : findAccountByUser db uid = some s)
    (hnn : 0 ≤ s.balance)
    (hamt : t.amount ≤ 0)
    (hr : findAccountByKey db t.to_pix_key = some r) :
    ∃ db', pix_transfer db uid t txn_id now = (.ok txn_id, db') :=
  ⟨_, pix_transfer_ok db uid t txn_id now s r hs (not_lt.mpr (le_trans hamt hnn)) hr⟩

theorem pix_transfer_accepts_nonpositive_witness :
    ∃ db', pix_transfer twoAccountDB "u1" ⟨"bob@x.br", -5, none⟩ "t2" 0
      = (.ok "t2", db') :=
  pix_transfer_accepts_nonpositive twoAccountDB "u1" ⟨"bob@x.br", -5, none⟩ "t2" 0
    { id := "a1", user_id := "u1", pix_key := "alice@x.br" }
    { id := "a2", user_id := "u2", pix_key := "bob@x.br" }
    rfl (by norm_num) (by norm_num) rfl

/-- **C4**: on every failure path (sender account missing, insufficient
balance, recipient key not found) the handler leaves the database exactly as
it was — no transaction record is inserted and no balance changes; and with
the sender found and `balance < amount` it returns precisely HTTP 400
"Insufficient balance" with the state unchanged. -/
theorem pix_transfer_failure_no_mutation (db : DB) (uid : String) (t : PIXTransfer)
    (txn_id : String) (now : Nat) :
    (∀ e, (pix_transfer db uid t txn_id now).1 = .error e →
      (pix_transfer db uid t txn_id now).2 = db) ∧
    (∀ s, findAccountByUser db uid = some s → s.balance < t.amount →
      pix_transfer db uid t txn_id now = (.error ⟨400, "Insufficient balance"⟩, db)) := by
  constructor
  · intro e he
    cases hs : findAccountByUser db uid with
    | none => simp only [pix_transfer, hs]
    | some s =>
      by_cases hlt : s.balance < t.amount
      · simp only [pix_transfer, hs, if_pos hlt]
      · cases hr : findAccountByKey db t.to_pix_key with
        | none => simp only [pix_transfer, hs, if_neg hlt, hr]
        | some r =>
          rw [pix_transfer_ok db uid t txn_id now s r hs hlt hr] at he
          exact absurd he (by simp)
  · intro s hs hlt
    simp only [pix_transfer, hs, if_pos hlt]

theorem pix_transfer_failure_no_mutation_witness :
    pix_transfer twoAccountDB "u1" ⟨"bob@x.br", 5, none⟩ "t1" 0
      = (.error ⟨400, "Insufficient balance"⟩, twoAccountDB) :=
  (pix_transfer_failure_no_mutation twoAccountDB "u1" ⟨"bob@x.br", 5, none⟩ "t1" 0).2
    { id := "a1", user_id := "u1", pix_key := "alice@x.br" } rfl (by norm_num)

/-- **C9**: no self-transfer guard.  When the recipient key resolves to an
account owned by the sender, a transfer with `0 < amount ≤ balance` succeeds,
appends exactly one completed transaction of that amount, and leaves every
account — in particular the sender's balance — unchanged (decremented then
incremented by the same amount). -/
theorem pix_transfer_self_allowed (db : DB) (uid : String) (t : PIXTransfer)
    (txn_id : String) (now : Nat) (s r : PIXAccount)
    (hs : findAccountByUser db uid = some s)
    (hr : findAccountByKey db t.to_pix_key = some r)
    (hself : r.user_id = uid)
    (hpos : 0 < t.amount)
    (hbal : t.amount ≤ s.balance) :
    ∃ txn : PIXTransaction,
      pix_transfer db uid t txn_id now =
        (.ok txn_id, { db with pix_transactions := db.pix_transactions ++ [txn] }) ∧
      txn.status = "completed" ∧ txn.amount = t.amount := by
  refine ⟨{ id := txn_id, from_user_id := some uid, to_user_id := some r.user_id,
            from_pix_key := some s.pix_key, to_pix_key := t.to_pix_key,
            amount := t.amount, description := t.description,
            transaction_type := "send", status := "completed",
            created_at := now, completed_at := some now }, ?_, rfl, rfl⟩
  have hacc : incBalance (incBalance db.pix_accounts uid (-t.amount)) r.user_id t.amount
      = db.pix_accounts := by
    rw [hself, incBalance_incBalance, neg_add_cancel, incBalance_zero]
  rw [pix_transfer_ok db uid t txn_id now s r hs (not_lt.mpr hbal) hr, hacc]

theorem pix_transfer_self_allowed_witness :
    ∃ txn : PIXTransaction,
      pix_transfer fundedDB "u1" ⟨"alice@x.br", 30, none⟩ "t3" 7 =
        (.ok "t3",
         { fundedDB with pix_transactions := fundedDB.pix_transactions ++ [txn] }) ∧
      txn.status = "completed" ∧ txn.amount = 30 :=
  pix_transfer_self_allowed fundedDB "u1" ⟨"alice@x.br", 30, none⟩ "t3" 7
    { id := "a1", user_id := "u1", pix_key := "alice@x.br", balance := 100 }
    { id := "a1", user_id := "u1", pix_key := "alice@x.br", balance := 100 }
    rfl rfl rfl (by norm_num) (by norm_num)

/-- **C10**: the insufficient-balance check runs before the recipient lookup.
With the sender's balance below the amount and a recipient key matching no
account, the transfer fails with HTTP 400 "Insufficient balance", not with the
HTTP 404 recipient NotFound error. -/
theorem pix_transfer_balance_check_first (db : DB) (uid : String) (t : PIXTransfer)
    (txn_id : String) (now : Nat) (s : PIXAccount)
    (hs : findAccountByUser db uid = some s)
    (hlt : s.balance < t.amount)
    (hr : findAccountByKey db t.to_pix_key = none) :
    pix_transfer db uid t txn_id now = (.error ⟨400, "Insufficient balance"⟩, db) := by
  simp only [pix_transfer, hs, if_pos hlt]

theorem pix_transfer_balance_check_first_witness :
    pix_transfer twoAccountDB "u1" ⟨"ghost@x.br", 5, none⟩ "t1" 0
      = (.error ⟨400, "Insufficient balance"⟩, twoAccountDB) :=
  pix_transfer_balance_check_first twoAccountDB "u1" ⟨"ghost@x.br", 5, none⟩ "t1" 0
    { id := "a1", user_id := "u1", pix_key := "alice@x.br" } rfl (by norm_num) rfl

/-- **C5**: `get_pix_transactions` returns only transactions in which the user
appears as sender or recipient, ordered by `created_at` descending, and at
most 100 of them; when the user has at most 100 matching transactions it
returns exactly those transactions. -/
theorem get_pix_transactions_spec (db : DB) (uid : String) :
    (get_pix_transactions db uid).length ≤ 100 ∧
    (∀ tx ∈ get_pix_transactions db uid,
      tx ∈ db.pix_transactions ∧
        (tx.from_user_id = some uid ∨ tx.to_user_id = some uid)) ∧
    (get_pix_transactions db uid).Pairwise
      (fun a b => b.created_at ≤ a.created_at) ∧
    ((db.pix_transactions.filter (fun t => t.from_user_id == some uid
        || t.to_user_id == some uid)).length ≤ 100 →
      ∀ tx, tx ∈ get_pix_transactions db uid ↔
        tx ∈ db.pix_transactions ∧
          (tx.from_user_id = some uid ∨ tx.to_user_id = some uid)) := by
  refine ⟨List.length_take_le _ _, ?_, ?_, ?_⟩
  · intro tx htx
    have h2 := List.mem_mergeSort.mp (List.mem_of_mem_take htx)
    have h3 := List.mem_filter.mp h2
    refine ⟨h3.1, ?_⟩
    have h4 := h3.2
    simp only [Bool.or_eq_true, beq_iff_eq] at h4
    exact h4
  · have hsorted := @List.sorted_mergeSort PIXTransaction
      (fun a b => decide (b.created_at ≤ a.created_at))
      (fun a b c hab hbc => by
        simp only [decide_eq_true_eq] at hab hbc ⊢; omega)
      (fun a b => by
        simp only [Bool.or_eq_true, decide_eq_true_eq]; omega)
      (db.pix_transactions.filter (fun t => t.from_user_id == some uid
        || t.to_user_id == some uid))
    exact List.Pairwise.sublist (List.take_sublist _ _)
      (hsorted.imp (by simp only [decide_eq_true_eq]; exact fun h => h))
  · intro hlen tx
    have hlen2 : ((db.pix_transactions.filter (fun t => t.from_user_id == some uid
        || t.to_user_id == some uid)).mergeSort
          (fun a b => decide (b.created_at ≤ a.created_at))).length ≤ 100 := by
      rw [List.length_mergeSort]; exact hlen
    unfold get_pix_transactions
    rw [List.take_of_length_le hlen2, List.mem_mergeSort, List.mem_filter]
    simp only [Bool.or_eq_true, beq_iff_eq]

/-- A transaction used to instantiate the listing claim on concrete data. -/
def sampleTxn : PIXTransaction :=
  { id := "t9", from_user_id := some "u1", to_user_id := some "u2",
    from_pix_key := some "alice@x.br", to_pix_key := "bob@x.br",
    amount := 30, transaction_type := "send", status := "completed",
    created_at := 5, completed_at := some 5 }

/-- `fundedDB` after one recorded transfer. -/
def txnDB : DB := { fundedDB with pix_transactions := [sampleTxn] }

theorem get_pix_transactions_spec_witness :
    sampleTxn ∈ get_pix_transactions txnDB "u1" ↔
      sampleTxn ∈ txnDB.pix_transactions ∧
        (sampleTxn.from_user_id = some "u1" ∨ sampleTxn.to_user_id = some "u1") :=
  (get_pix_transactions_spec txnDB "u1").2.2.2 (by decide) sampleTxn

/-- **C6**: `create_card` fails with HTTP 400 "KYC approval required for card
creation" whenever the user's `kyc_status` is not `"approved"`, leaving the
state unchanged; for an approved user it succeeds and stores a card carrying
the requested limits, which default to `daily_limit = 5000` and
`monthly_limit = 50000` when unspecified (the `CardCreate` pydantic
defaults). -/
theorem create_card_spec (db : DB) (u : User) (cd : CardCreate) (card_id : String) :
    (u.kyc_status ≠ "approved" →
      create_card db u cd card_id
        = (.error ⟨400, "KYC approval required for card creation"⟩, db)) ∧
    (u.kyc_status = "approved" →
      ∃ card : VirtualCard, create_card db u cd card_id
          = (.ok card, { db with virtual_cards := db.virtual_cards ++ [card] }) ∧
        card.daily_limit = cd.daily_limit ∧ card.monthly_limit = cd.monthly_limit) ∧
    (∀ name : String,
      ({ card_holder_name := name } : CardCreate).daily_limit = 5000 ∧
      ({ card_holder_name := name } : CardCreate).monthly_limit = 50000) := by
  refine ⟨?_, ?_, fun name => ⟨rfl, rfl⟩⟩
  · intro h
    simp only [create_card, if_pos h]
  · intro h
    refine ⟨{ id := card_id, user_id := u.id, card_holder_name := cd.card_holder_name,
              daily_limit := cd.daily_limit, monthly_limit := cd.monthly_limit },
      ?_, rfl, rfl⟩
    simp only [create_card, h, ne_eq, not_true_eq_false, if_false, ite_false]

def pendingUser : User := { id := "u3", email := "carol@x.br", full_name := "Carol" }

def approvedUser : User :=
  { id := "u4", email := "dan@x.br", full_name := "Dan", kyc_status := "approved" }

theorem create_card_spec_witness :
    (create_card twoAccountDB pendingUser { card_holder_name := "CAROL" } "c1"
      = (.error ⟨400, "KYC approval required for card creation"⟩, twoAccountDB)) ∧
    (∃ card : VirtualCard,
      create_card twoAccountDB approvedUser { card_holder_name := "DAN" } "c2"
        = (.ok card,
           { twoAccountDB with
             virtual_cards := twoAccountDB.virtual_cards ++ [card] }) ∧
      card.daily_limit = 5000 ∧ card.monthly_limit = 50000) :=
  ⟨(create_card_spec twoAccountDB pendingUser { card_holder_name := "CAROL" } "c1").1
     (by decide),
   (create_card_spec twoAccountDB approvedUser { card_holder_name := "DAN" } "c2").2.1
     rfl⟩

/-- **C7**: `generate_pix_qr` mutates no state — it returns the database
unchanged on every path — and decoding the payload it hands to the external
QR renderer reproduces the original `pix_key`, `amount` and `description`. -/
theorem generate_pix_qr_spec (db : DB) (u : User) (qr_data : PIXQRCode) :
    (generate_pix_qr db u qr_data).2 = db ∧
    (∀ resp : QRResponse, (generate_pix_qr db u qr_data).1 = .ok resp →
      decode_qr_payload resp.qr_code_payload
        = some (resp.pix_key, qr_data.amount, qr_data.description)) := by
  constructor
  · cases h : findAccountByUser db u.id with
    | none => simp [generate_pix_qr, h]
    | some a => simp [generate_pix_qr, h]
  · intro resp hresp
    cases h : findAccountByUser db u.id with
    | none => simp [generate_pix_qr, h] at hresp
    | some a =>
      simp only [generate_pix_qr, h] at hresp
      have heq := Except.ok.inj hresp
      subst heq
      cases hd : qr_data.description with
      | none => simp [decode_qr_payload, qr_payload, Json.lookup, optionalStr, hd]
      | some s => simp [decode_qr_payload, qr_payload, Json.lookup, optionalStr, hd]

theorem generate_pix_qr_spec_witness :
    (generate_pix_qr fundedDB
        { id := "u1", email := "alice@x.br", full_name := "Alice" }
        ⟨50, some "Test"⟩).2 = fundedDB ∧
    decode_qr_payload (qr_payload "alice@x.br" 50 (some "Test") "Alice")
      = some ("alice@x.br", 50, some "Test") :=
  ⟨(generate_pix_qr_spec fundedDB
      { id := "u1", email := "alice@x.br", full_name := "Alice" } ⟨50, some "Test"⟩).1,
   (generate_pix_qr_spec fundedDB
      { id := "u1", email := "alice@x.br", full_name := "Alice" } ⟨50, some "Test"⟩).2
     { qr_code_payload := qr_payload "alice@x.br" 50 (some "Test") "Alice",
       pix_key := "alice@x.br", amount := 50 } rfl⟩

/-- **C8**: reviewing a KYC document with a status other than `"approved"` or
`"rejected"` (including a missing status) fails with HTTP 400 "Invalid status"
and changes nothing; with status `"approved"` or `"rejected"` on an existing
document whose owning user exists, the review succeeds, sets the document's
status to that value and sets the owner's `kyc_status` to the same value. -/
theorem review_kyc_spec (db : DB) (kyc_id : String) (action_status : Option String)
    (action_notes : Option String) (reviewer : String) (now : Nat) :
    (action_status ≠ some "approved" → action_status ≠ some "rejected" →
      review_kyc db kyc_id action_status action_notes reviewer now
        = (.error ⟨400, "Invalid status"⟩, db)) ∧
    (∀ s d u, action_status = some s → (s = "approved" ∨ s = "rejected") →
      db.kyc_documents.find? (fun x => x.id == kyc_id) = some d →
      db.users.find? (fun x => x.id == d.user_id) = some u →
      ∃ msg db', review_kyc db kyc_id action_status action_notes reviewer now
          = (.ok msg, db') ∧
        kycDocStatus db' kyc_id = some s ∧ userKycStatus db' d.user_id = some s) := by
  constructor
  · intro h1 h2
    cases action_status with
    | none => rfl
    | some s =>
      have hs1 : s ≠ "approved" := fun hc => h1 (by rw [hc])
      have hs2 : s ≠ "rejected" := fun hc => h2 (by rw [hc])
      simp only [review_kyc]
      rw [if_pos (show s ≠ "approved" ∧ s ≠ "rejected" from ⟨hs1, hs2⟩)]
  · intro s d u hst hvalid hd hu
    subst hst
    have hcond : ¬(s ≠ "approved" ∧ s ≠ "rejected") := by
      rcases hvalid with rfl | rfl <;> simp
    have hpd : (fun x : KYCDocument => x.id == kyc_id) d = true :=
      (List.find?_eq_some.mp hd).1
    have hany : db.kyc_documents.any (fun x => x.id == kyc_id) = true :=
      List.any_eq_true.mpr ⟨d, List.mem_of_find?_eq_some hd, hpd⟩
    have hfind1 : (updateFirst (fun x : KYCDocument => x.id == kyc_id)
        (fun x => { x with
          status := s
          reviewed_at := some now
          reviewer_id := some reviewer
          reviewer_notes := some (action_notes.getD "") }) db.kyc_documents).find?
          (fun x => x.id == kyc_id)
        = some { d with
            status := s
            reviewed_at := some now
            reviewer_id := some reviewer
            reviewer_notes := some (action_notes.getD "") } := by
      rw [find?_updateFirst (fun x : KYCDocument => x.id == kyc_id)
        (fun x => { x with
          status := s
          reviewed_at := some now
          reviewer_id := some reviewer
          reviewer_notes := some (action_notes.getD "") })
        db.kyc_documents (fun x hx => hx), hd, Option.map_some']
    have hfind2 : (updateFirst (fun x : User => x.id == d.user_id)
        (fun x => { x with kyc_status := s }) db.users).find?
          (fun x => x.id == d.user_id)
        = some { u with kyc_status := s } := by
      rw [find?_updateFirst (fun x : User => x.id == d.user_id)
        (fun x => { x with kyc_status := s }) db.users (fun x hx => hx),
        hu, Option.map_some']
    refine ⟨"KYC " ++ s ++ " successfully",
      { db with
        users := updateFirst (fun x : User => x.id == d.user_id)
          (fun x => { x with kyc_status := s }) db.users
        kyc_documents := updateFirst (fun x : KYCDocument => x.id == kyc_id)
          (fun x => { x with
            status := s
            reviewed_at := some now
            reviewer_id := some reviewer
            reviewer_notes := some (action_notes.getD "") }) db.kyc_documents },
      ?_, ?_, ?_⟩
    · simp only [review_kyc]
      rw [if_neg hcond, if_neg (fun hcon : ¬ _ = true => hcon hany)]
      simp only [hfind1]
    · simp only [kycDocStatus]
      rw [hfind1]
      rfl
    · simp only [userKycStatus]
      rw [hfind2]
      rfl

/-- One submitted KYC document awaiting review, with its owning user. -/
def kycDB : DB :=
  { users := [{ id := "u5", email := "eve@x.br", full_name := "Eve",
                kyc_status := "in_review" }]
    kyc_documents := [{ id := "k1", user_id := "u5", document_type := "cpf",
                        document_number := "123", status := "in_review" }] }

theorem review_kyc_spec_witness :
    (review_kyc kycDB "k1" (some "weird") none "admin" 9
       = (.error ⟨400, "Invalid status"⟩, kycDB)) ∧
    (∃ msg db', review_kyc kycDB "k1" (some "approved") none "admin" 9
         = (.ok msg, db') ∧
       kycDocStatus db' "k1" = some "approved" ∧
       userKycStatus db' "u5" = some "approved") :=
  ⟨(review_kyc_spec kycDB "k1" (some "weird") none "admin" 9).1
     (by decide) (by decide),
   (review_kyc_spec kycDB "k1" (some "approved") none "admin" 9).2 "approved"
     { id := "k1", user_id := "u5", document_type := "cpf",
       document_number := "123", status := "in_review" }
     { id := "u5", email := "eve@x.br", full_name := "Eve",
       kyc_status := "in_review" }
     rfl (Or.inl rfl) rfl rfl⟩

end FintechFlow
